import Mathlib

/-!
Verification of the e-commerce profitability calculator (src/App.tsx,
src/unnamed/part_000 = types.ts).  The calculator core is pure arithmetic
over JavaScript numbers; the spec treats all intermediate values as real
numbers, so we embed the arithmetic over the rationals `ℚ`, which makes
every formula exact and every statement decidable on concrete inputs.
-/

/-- Structure `CalculatorInputs` from types.ts: the user-supplied funnel and
cost parameters. -/
structure CalculatorInputs where
  totalOrders : ℚ
  cancelledOverCall : ℚ
  rtoPercentage : ℚ
  sellingPrice : ℚ
  productCost : ℚ
  adCostPerOrder : ℚ
  adGstPercentage : ℚ
  shippingCost : ℚ
  rtoShippingCost : ℚ
  productDamageRtoPercentage : ℚ
  packingCost : ℚ
  miscellaneous : ℚ
deriving DecidableEq, Repr

/-- Structure `CalculatedResults` from types.ts: the derived record returned
by the calculator. -/
structure CalculatedResults where
  orderToBeShipped : ℚ
  rtoCount : ℚ
  deliveredOrders : ℚ
  totalRevenue : ℚ
  totalProductCost : ℚ
  totalAdCost : ℚ
  totalShippingCost : ℚ
  totalRtoShipping : ℚ
  totalDamageLoss : ℚ
  totalPackingCost : ℚ
  totalMiscellaneous : ℚ
  totalExpenses : ℚ
  netProfit : ℚ
  profitMargin : ℚ
deriving DecidableEq, Repr

/-- App.tsx line 72: `Math.max(0, totalOrders - cancelledOverCall)`. -/
def orderShipped (i : CalculatorInputs) : ℚ :=
  max 0 (i.totalOrders - i.cancelledOverCall)

/-- App.tsx line 73: `orderToBeShipped * (rtoPercentage / 100)`. -/
def rtoCountOf (i : CalculatorInputs) : ℚ :=
  orderShipped i * (i.rtoPercentage / 100)

/-- App.tsx line 74: `Math.max(0, orderToBeShipped - rtoCount)`. -/
def deliveredOf (i : CalculatorInputs) : ℚ :=
  max 0 (orderShipped i - rtoCountOf i)

/-- App.tsx: the `results` useMemo body, one field per source line. -/
def compute (i : CalculatorInputs) : CalculatedResults :=
  let orderToBeShipped := orderShipped i
  let rtoCount := rtoCountOf i
  let deliveredOrders := deliveredOf i
  let totalRevenue := deliveredOrders * i.sellingPrice
  let totalProductCost := deliveredOrders * i.productCost
  let totalDamageLoss := rtoCount * i.productCost * (i.productDamageRtoPercentage / 100)
  let totalAdCost := i.totalOrders * i.adCostPerOrder * (1 + i.adGstPercentage / 100)
  let totalShippingCost := orderToBeShipped * i.shippingCost
  let totalRtoShipping := rtoCount * i.rtoShippingCost
  let totalPackingCost := orderToBeShipped * i.packingCost
  let totalMiscellaneous := i.miscellaneous
  let totalExpenses :=
    totalProductCost + totalAdCost + totalShippingCost +
    totalRtoShipping + totalDamageLoss + totalPackingCost + totalMiscellaneous
  let netProfit := totalRevenue - totalExpenses
  let profitMargin := if totalRevenue > 0 then (netProfit / totalRevenue) * 100 else 0
  { orderToBeShipped := orderToBeShipped
    rtoCount := rtoCount
    deliveredOrders := deliveredOrders
    totalRevenue := totalRevenue
    totalProductCost := totalProductCost
    totalAdCost := totalAdCost
    totalShippingCost := totalShippingCost
    totalRtoShipping := totalRtoShipping
    totalDamageLoss := totalDamageLoss
    totalPackingCost := totalPackingCost
    totalMiscellaneous := totalMiscellaneous
    totalExpenses := totalExpenses
    netProfit := netProfit
    profitMargin := profitMargin }

/-- App.tsx line 29: the fixed 7-color palette. -/
def COLORS : List String :=
  ["#4F46E5", "#EF4444", "#F59E0B", "#10B981", "#6366F1", "#8B5CF6", "#EC4899"]

/-- One entry of the distribution list built by the `chartData` useMemo. -/
structure ChartDatum where
  name : String
  value : ℚ
  color : String
  percentageOfRevenue : ℚ
  percentageOfExpenses : ℚ
deriving DecidableEq, Repr

/-- App.tsx lines 101-108: the fixed-order (label, value) list. -/
def expensePairs (r : CalculatedResults) : List (String × ℚ) :=
  [("Product", r.totalProductCost),
   ("Ads", r.totalAdCost),
   ("Forward Shipping", r.totalShippingCost),
   ("RTO Shipping", r.totalRtoShipping),
   ("Packing", r.totalPackingCost),
   ("RTO Loss", r.totalDamageLoss),
   ("Misc", r.totalMiscellaneous)]

/-- App.tsx lines 109-117: filter to positive values, then map with the
filtered index: `COLORS[index % COLORS.length]`, `percentageOfRevenue`,
`percentageOfExpenses`. -/
def chartData (r : CalculatedResults) : List ChartDatum :=
  (((expensePairs r).filter (fun p => decide (0 < p.2))).enum).map (fun x =>
    { name := x.2.1
      value := x.2.2
      color := COLORS.getD (x.1 % COLORS.length) ""
      percentageOfRevenue :=
        if 0 < r.totalRevenue then x.2.2 / r.totalRevenue * 100 else 0
      percentageOfExpenses :=
        if 0 < r.totalExpenses then x.2.2 / r.totalExpenses * 100 else 0 })

/-- The default inputs record (App.tsx lines 40-53, also restored by
`resetInputs`). -/
def defaultInputs : CalculatorInputs :=
  { totalOrders := 10
    cancelledOverCall := 0
    rtoPercentage := 10
    sellingPrice := 600
    productCost := 100
    adCostPerOrder := 100
    adGstPercentage := 18
    shippingCost := 50
    rtoShippingCost := 72
    productDamageRtoPercentage := 0
    packingCost := 10
    miscellaneous := 5 }

/-- C1: on the default inputs, compute returns the Scenario A record:
orderToBeShipped=10, rtoCount=1, deliveredOrders=9, totalRevenue=5400,
totalProductCost=900, totalAdCost=1180, totalShippingCost=500,
totalRtoShipping=72, totalDamageLoss=0, totalPackingCost=100,
totalMiscellaneous=5, totalExpenses=2757, netProfit=2643, and
profitMargin = 2643/5400*100. -/
theorem compute_defaults_scenarioA :
    (compute defaultInputs).orderToBeShipped = 10 ∧
    (compute defaultInputs).rtoCount = 1 ∧
    (compute defaultInputs).deliveredOrders = 9 ∧
    (compute defaultInputs).totalRevenue = 5400 ∧
    (compute defaultInputs).totalProductCost = 900 ∧
    (compute defaultInputs).totalAdCost = 1180 ∧
    (compute defaultInputs).totalShippingCost = 500 ∧
    (compute defaultInputs).totalRtoShipping = 72 ∧
    (compute defaultInputs).totalDamageLoss = 0 ∧
    (compute defaultInputs).totalPackingCost = 100 ∧
    (compute defaultInputs).totalMiscellaneous = 5 ∧
    (compute defaultInputs).totalExpenses = 2757 ∧
    (compute defaultInputs).netProfit = 2643 ∧
    (compute defaultInputs).profitMargin = 2643 / 5400 * 100 := by
  norm_num [compute, orderShipped, rtoCountOf, deliveredOf, defaultInputs, max_def]

/-- C2: for every inputs record, profitMargin is (netProfit / totalRevenue)
times 100 when totalRevenue is positive, and exactly 0 otherwise; the
conditional guards the division. -/
theorem compute_profitMargin_guarded (i : CalculatorInputs) :
    (compute i).profitMargin =
      if 0 < (compute i).totalRevenue then
        (compute i).netProfit / (compute i).totalRevenue * 100
      else 0 := by
  simp only [compute]

/-- C3: for every inputs record, regardless of sign or magnitude of any
field, orderToBeShipped and deliveredOrders are nonnegative. -/
theorem compute_counts_nonneg (i : CalculatorInputs) :
    0 ≤ (compute i).orderToBeShipped ∧ 0 ≤ (compute i).deliveredOrders := by
  refine ⟨?_, ?_⟩ <;> simp [compute, orderShipped, deliveredOf, le_max_left]

/-- C4: for every inputs record, totalExpenses is exactly the sum of the
seven expense components of the same result record, with no other term. -/
theorem compute_totalExpenses_sum (i : CalculatorInputs) :
    (compute i).totalExpenses =
      (compute i).totalProductCost + (compute i).totalAdCost +
      (compute i).totalShippingCost + (compute i).totalRtoShipping +
      (compute i).totalDamageLoss + (compute i).totalPackingCost +
      (compute i).totalMiscellaneous := by
  simp only [compute]

/-- The Scenario D inputs: cancelledOverCall = 15, totalOrders = 10, all
other fields at their defaults. -/
def overCancelInputs : CalculatorInputs :=
  { defaultInputs with cancelledOverCall := 15 }

/-- C8: with cancelledOverCall = 15 and totalOrders = 10, orderToBeShipped
is clamped to 0 and every per-shipped-order quantity is 0. -/
theorem compute_overCancellation_clamped :
    (compute overCancelInputs).orderToBeShipped = 0 ∧
    (compute overCancelInputs).rtoCount = 0 ∧
    (compute overCancelInputs).deliveredOrders = 0 ∧
    (compute overCancelInputs).totalRevenue = 0 ∧
    (compute overCancelInputs).totalProductCost = 0 ∧
    (compute overCancelInputs).totalShippingCost = 0 ∧
    (compute overCancelInputs).totalRtoShipping = 0 ∧
    (compute overCancelInputs).totalDamageLoss = 0 ∧
    (compute overCancelInputs).totalPackingCost = 0 := by
  norm_num [compute, orderShipped, rtoCountOf, deliveredOf, overCancelInputs,
    defaultInputs, max_def]

/-- C10: when 0 ≤ rtoPercentage ≤ 100, the funnel is conserved:
rtoCount + deliveredOrders = orderToBeShipped and
0 ≤ rtoCount ≤ orderToBeShipped (the clamp in the deliveredOrders step
never takes effect). -/
theorem compute_funnel_conservation (i : CalculatorInputs)
    (h0 : 0 ≤ i.rtoPercentage) (h100 : i.rtoPercentage ≤ 100) :
    (compute i).rtoCount + (compute i).deliveredOrders =
      (compute i).orderToBeShipped ∧
    0 ≤ (compute i).rtoCount ∧
    (compute i).rtoCount ≤ (compute i).orderToBeShipped := by
  have hs : (0 : ℚ) ≤ orderShipped i := le_max_left 0 _
  have hr0 : 0 ≤ rtoCountOf i := by
    have : (0 : ℚ) ≤ i.rtoPercentage / 100 := by positivity
    exact mul_nonneg hs this
  have hr1 : rtoCountOf i ≤ orderShipped i := by
    have hle : i.rtoPercentage / 100 ≤ 1 := by linarith
    calc rtoCountOf i = orderShipped i * (i.rtoPercentage / 100) := rfl
      _ ≤ orderShipped i * 1 := by
          exact mul_le_mul_of_nonneg_left hle hs
      _ = orderShipped i := mul_one _
  have hd : deliveredOf i = orderShipped i - rtoCountOf i := by
    unfold deliveredOf
    exact max_eq_right (by linarith)
  refine ⟨?_, ?_, ?_⟩ <;> simp only [compute] <;> [skip; exact hr0; exact hr1]
  rw [hd]; ring

/-- Closed witness for C10 at the default inputs. -/
theorem compute_funnel_conservation_witness :
    (compute defaultInputs).rtoCount + (compute defaultInputs).deliveredOrders =
      (compute defaultInputs).orderToBeShipped ∧
    0 ≤ (compute defaultInputs).rtoCount ∧
    (compute defaultInputs).rtoCount ≤ (compute defaultInputs).orderToBeShipped :=
  compute_funnel_conservation defaultInputs (by norm_num [defaultInputs])
    (by norm_num [defaultInputs])

/-- C5: for every results record, every entry of the distribution list has
value > 0; the (name, value) pairs are exactly the positive entries of the
fixed declaration-order list, so names appear in the order Product, Ads,
Forward Shipping, RTO Shipping, Packing, RTO Loss, Misc and are never
re-sorted; and when no component is positive the list is empty. -/
theorem chartData_positive_ordered (r : CalculatedResults) :
    (∀ d ∈ chartData r, 0 < d.value) ∧
    (chartData r).map (fun d => (d.name, d.value)) =
      (expensePairs r).filter (fun p => decide (0 < p.2)) ∧
    List.Sublist ((chartData r).map ChartDatum.name)
      ["Product", "Ads", "Forward Shipping", "RTO Shipping",
       "Packing", "RTO Loss", "Misc"] ∧
    ((∀ p ∈ expensePairs r, p.2 ≤ 0) → chartData r = []) := by
  have hpairs : (chartData r).map (fun d => (d.name, d.value)) =
      (expensePairs r).filter (fun p => decide (0 < p.2)) := by
    simp only [chartData, List.map_map]
    have : ((fun d => (d.name, d.value)) ∘ (fun x : Nat × (String × ℚ) =>
        ({ name := x.2.1, value := x.2.2,
           color := COLORS.getD (x.1 % COLORS.length) "",
           percentageOfRevenue :=
             if 0 < r.totalRevenue then x.2.2 / r.totalRevenue * 100 else 0,
           percentageOfExpenses :=
             if 0 < r.totalExpenses then x.2.2 / r.totalExpenses * 100 else 0 }
          : ChartDatum))) = Prod.snd := by
      funext x; rfl
    rw [this, List.enum_map_snd]
  refine ⟨?_, hpairs, ?_, ?_⟩
  · intro d hd
    simp only [chartData, List.mem_map] at hd
    obtain ⟨x, hx, rfl⟩ := hd
    have hmem := List.snd_mem_of_mem_enum hx
    have := List.of_mem_filter hmem
    simpa using this
  · have h1 : List.Sublist ((expensePairs r).filter (fun p => decide (0 < p.2)))
        (expensePairs r) := List.filter_sublist _
    have h2 := h1.map Prod.fst
    have h3 : (expensePairs r).map Prod.fst =
        ["Product", "Ads", "Forward Shipping", "RTO Shipping",
         "Packing", "RTO Loss", "Misc"] := by
      simp [expensePairs]
    have h4 : ((chartData r).map (fun d => (d.name, d.value))).map Prod.fst =
        (chartData r).map ChartDatum.name := by
      simp [List.map_map]
    rw [hpairs] at h4
    rw [← h4, ← h3]
    exact h2
  · intro hall
    have : (expensePairs r).filter (fun p => decide (0 < p.2)) = [] := by
      rw [List.filter_eq_nil_iff]
      intro p hp
      simpa using not_lt.mpr (hall p hp)
    simp [chartData, this]

/-- Closed witness for the C5 empty-distribution conjunct: on the
all-zero-components record the distribution is empty. -/
theorem chartData_positive_ordered_witness :
    chartData { orderToBeShipped := 0, rtoCount := 0, deliveredOrders := 0,
                totalRevenue := 0, totalProductCost := 0, totalAdCost := 0,
                totalShippingCost := 0, totalRtoShipping := 0,
                totalDamageLoss := 0, totalPackingCost := 0,
                totalMiscellaneous := 0, totalExpenses := 0,
                netProfit := 0, profitMargin := 0 } = [] :=
  (chartData_positive_ordered _).2.2.2 (by
    intro p hp
    simp [expensePairs] at hp
    rcases hp with h | h | h | h | h | h | h <;> simp [h])

/-- C7: the i-th entry of the filtered distribution list is colored with
COLORS[i % 7], where i is the position in the filtered list. -/
theorem chartData_color_cycle (r : CalculatedResults) (n : Nat)
    (h : n < (chartData r).length) :
    ((chartData r).get ⟨n, h⟩).color = COLORS.getD (n % 7) "" := by
  have hlen : n < ((expensePairs r).filter (fun p => decide (0 < p.2))).length := by
    simpa [chartData] using h
  have hlen2 : n < (((expensePairs r).filter (fun p => decide (0 < p.2))).enum).length := by
    simpa using hlen
  show ((chartData r)[n]).color = COLORS.getD (n % 7) ""
  simp only [chartData]
  rw [List.getElem_map]
  have henum : (((expensePairs r).filter (fun p => decide (0 < p.2))).enum)[n] =
      (n, ((expensePairs r).filter (fun p => decide (0 < p.2)))[n]) := by
    apply List.getElem_enum
  rw [henum]
  rfl

/-- Closed witness for C7: on the default results the first entry is the
first palette color. -/
theorem chartData_color_cycle_witness :
    ((chartData (compute defaultInputs)).get
      ⟨0, by norm_num [chartData, expensePairs, compute, orderShipped,
                       rtoCountOf, deliveredOf, defaultInputs, max_def]⟩).color =
      COLORS.getD (0 % 7) "" :=
  chartData_color_cycle (compute defaultInputs) 0
    (by norm_num [chartData, expensePairs, compute, orderShipped,
                  rtoCountOf, deliveredOf, defaultInputs, max_def])

/-- The field keys of `CalculatorInputs` (`keyof CalculatorInputs` in
the App.tsx `handleInputChange`). -/
inductive InputField where
  | totalOrders | cancelledOverCall | rtoPercentage | sellingPrice
  | productCost | adCostPerOrder | adGstPercentage | shippingCost
  | rtoShippingCost | productDamageRtoPercentage | packingCost | miscellaneous
deriving DecidableEq, Repr

/-- Read one field of the inputs record by key. -/
def getInput (i : CalculatorInputs) : InputField → ℚ
  | .totalOrders => i.totalOrders
  | .cancelledOverCall => i.cancelledOverCall
  | .rtoPercentage => i.rtoPercentage
  | .sellingPrice => i.sellingPrice
  | .productCost => i.productCost
  | .adCostPerOrder => i.adCostPerOrder
  | .adGstPercentage => i.adGstPercentage
  | .shippingCost => i.shippingCost
  | .rtoShippingCost => i.rtoShippingCost
  | .productDamageRtoPercentage => i.productDamageRtoPercentage
  | .packingCost => i.packingCost
  | .miscellaneous => i.miscellaneous

/-- The update `setInputs(prev => (spread of prev, field: numValue))`:
replace one field, keep the rest. -/
def setInput (i : CalculatorInputs) : InputField → ℚ → CalculatorInputs
  | .totalOrders, v => { i with totalOrders := v }
  | .cancelledOverCall, v => { i with cancelledOverCall := v }
  | .rtoPercentage, v => { i with rtoPercentage := v }
  | .sellingPrice, v => { i with sellingPrice := v }
  | .productCost, v => { i with productCost := v }
  | .adCostPerOrder, v => { i with adCostPerOrder := v }
  | .adGstPercentage, v => { i with adGstPercentage := v }
  | .shippingCost, v => { i with shippingCost := v }
  | .rtoShippingCost, v => { i with rtoShippingCost := v }
  | .productDamageRtoPercentage, v => { i with productDamageRtoPercentage := v }
  | .packingCost, v => { i with packingCost := v }
  | .miscellaneous, v => { i with miscellaneous := v }

/-- App.tsx handleInputChange, string branch:
`parseFloat(value) || 0`.  `parseFloat` is a JavaScript builtin, modelled
as its outcome `Option ℚ` with `none` for NaN (unparseable text); `|| 0`
replaces the falsy results NaN and 0 by 0. -/
def coerceNumValue : Option ℚ → ℚ
  | none => 0
  | some x => if x = 0 then 0 else x

/-- App.tsx lines 120-123: the input-change handler for a string value,
with the parse outcome made explicit. -/
def handleInputChange (f : InputField) (parsed : Option ℚ)
    (i : CalculatorInputs) : CalculatorInputs :=
  setInput i f (coerceNumValue parsed)

/-- C9: when the text does not parse (parseFloat yields NaN, modelled as
`none`), the handler stores 0 in the edited field and leaves every other
field unchanged, so every field always holds a number. -/
theorem handleInputChange_nan_stores_zero (f g : InputField)
    (i : CalculatorInputs) :
    getInput (handleInputChange f none i) g =
      if g = f then 0 else getInput i g := by
  cases f <;> cases g <;>
    simp [handleInputChange, setInput, getInput, coerceNumValue]

/-- The defaults with a positive damage percentage; on these inputs every
one of the seven expense components of the computed result is positive. -/
def allPositiveInputs : CalculatorInputs :=
  { defaultInputs with productDamageRtoPercentage := 10 }

/-- C6: when compute yields all seven expense components strictly
positive, the percentageOfExpenses entries of the distribution list sum to
exactly 100. -/
theorem chartData_percent_sum (i : CalculatorInputs)
    (h1 : 0 < (compute i).totalProductCost)
    (h2 : 0 < (compute i).totalAdCost)
    (h3 : 0 < (compute i).totalShippingCost)
    (h4 : 0 < (compute i).totalRtoShipping)
    (h5 : 0 < (compute i).totalDamageLoss)
    (h6 : 0 < (compute i).totalPackingCost)
    (h7 : 0 < (compute i).totalMiscellaneous) :
    ((chartData (compute i)).map ChartDatum.percentageOfExpenses).sum = 100 := by
  have hE : (compute i).totalExpenses =
      (compute i).totalProductCost + (compute i).totalAdCost +
      (compute i).totalShippingCost + (compute i).totalRtoShipping +
      (compute i).totalDamageLoss + (compute i).totalPackingCost +
      (compute i).totalMiscellaneous := by
    simp only [compute]
  have hEpos : 0 < (compute i).totalExpenses := by rw [hE]; linarith
  generalize compute i = r at *
  obtain ⟨o, rc, d, rev, a, b, c, e, f, g, m, E, np, pm⟩ := r
  simp only at h1 h2 h3 h4 h5 h6 h7 hE hEpos ⊢
  subst hE
  have hne := ne_of_gt hEpos
  simp [chartData, expensePairs, List.enum, List.enumFrom,
    h1, h2, h3, h4, h5, h6, h7, hEpos]
  field_simp
  ring

/-- Closed witness for C6: on the defaults with 10% damage every component
is positive and the percentages sum to 100. -/
theorem chartData_percent_sum_witness :
    ((chartData (compute allPositiveInputs)).map
      ChartDatum.percentageOfExpenses).sum = 100 :=
  chartData_percent_sum allPositiveInputs
    (by norm_num [compute, orderShipped, rtoCountOf, deliveredOf,
          allPositiveInputs, defaultInputs, max_def])
    (by norm_num [compute, orderShipped, rtoCountOf, deliveredOf,
          allPositiveInputs, defaultInputs, max_def])
    (by norm_num [compute, orderShipped, rtoCountOf, deliveredOf,
          allPositiveInputs, defaultInputs, max_def])
    (by norm_num [compute, orderShipped, rtoCountOf, deliveredOf,
          allPositiveInputs, defaultInputs, max_def])
    (by norm_num [compute, orderShipped, rtoCountOf, deliveredOf,
          allPositiveInputs, defaultInputs, max_def])
    (by norm_num [compute, orderShipped, rtoCountOf, deliveredOf,
          allPositiveInputs, defaultInputs, max_def])
    (by norm_num [compute, orderShipped, rtoCountOf, deliveredOf,
          allPositiveInputs, defaultInputs, max_def])
